import Mathlib

/-!
Shallow embedding of the atl-wiki-link verification system
(`src/bot/core/database.py`, `src/bot/core/verification.py`,
`src/bot/core/tasks.py`, `src/api/app.py`) and proofs about the
token lifecycle, the OAuth callback, the purge job and the
case-insensitive wiki-username operations.

The `links` table is modelled as a list of `LinkRecord`s; timestamps are
integers counting seconds; every database round-trip that the Python code
wraps in `try/except` is given an explicit failure flag where a claim
depends on the failure path.
-/

namespace AtlWikiLink

/-- One row of the `links` table
(`CREATE TABLE links (discord_id BIGINT PRIMARY KEY, mediawiki_username TEXT,
token TEXT NOT NULL, created_at TIMESTAMP NOT NULL, verified BOOLEAN DEFAULT FALSE)`,
`src/bot/core/database.py`, `init_database`). `mediawiki_username` is nullable,
hence `Option String`. -/
structure LinkRecord where
  discord_id : Int
  mediawiki_username : Option String
  token : String
  created_at : Int
  verified : Bool
deriving Repr, DecidableEq

/-- The `links` table: at most one row per `discord_id` (primary key);
queries by `discord_id` are modelled with `List.find?`. -/
abbrev LinkStore := List LinkRecord

/-- Python truthiness of an optional string: `None` and `""` are falsy
(used by `if not token`, `row[0] if row and row[0] else None`, ...). -/
def truthy : Option String → Bool
  | none => false
  | some s => s ≠ ""

/-- Reissue cooldown used by `create_verification_token`:
`time_since_created.total_seconds() < 3600` (`src/bot/core/database.py:85-88`). -/
def REISSUE_COOLDOWN_SECONDS : Int := 3600

/-- `Config.TOKEN_EXPIRY_HOURS = 3` (`src/bot/core/config.py`). -/
def TOKEN_EXPIRY_HOURS : Int := 3

/-- `DatabaseManager.create_verification_token` (`src/bot/core/database.py:58-106`).

`freshToken` stands for the `secrets.token_urlsafe(32)` value drawn at entry,
`now` for `datetime.now(timezone.utc)`, and `dbFail` for the `except Exception`
path (any database error), which the Python code converts to `return None`
with the store untouched. Returns the value handed to the caller
(`Option String`: `None` encodes every rejection) together with the store
after the transaction. -/
def create_verification_token (store : LinkStore) (discord_id : Int)
    (freshToken : String) (now : Int) (dbFail : Bool) : Option String × LinkStore :=
  if dbFail then (none, store)
  else
    match store.find? (fun r => r.discord_id == discord_id) with
    | some r =>
      if r.verified then
        -- user already verified: no new token needed
        (none, store)
      else if now - r.created_at < REISSUE_COOLDOWN_SECONDS then
        -- recent pending verification exists
        (none, store)
      else
        -- UPDATE links SET token = %s, created_at = %s, verified = FALSE WHERE discord_id = %s
        (some freshToken,
         store.map fun r2 =>
           if r2.discord_id == discord_id then
             { r2 with token := freshToken, created_at := now, verified := false }
           else r2)
    | none =>
      -- INSERT INTO links (discord_id, token, created_at, verified) VALUES (%s, %s, %s, FALSE)
      (some freshToken, store ++ [⟨discord_id, none, freshToken, now, false⟩])

/-- Predicate of the purge job's `DELETE FROM links WHERE verified = FALSE AND
created_at < %s` with `%s = now - TOKEN_EXPIRY_HOURS` (`src/bot/core/database.py:146-162`). -/
def purgeCondition (now : Int) (r : LinkRecord) : Bool :=
  r.verified == false && r.created_at < now - TOKEN_EXPIRY_HOURS * 3600

/-- `DatabaseManager.purge_old_tokens` (`src/bot/core/database.py:146-162`):
deletes rows matching `purgeCondition` and returns the deleted row count
(`cur.rowcount`) with the remaining store. -/
def purge_old_tokens (store : LinkStore) (now : Int) : Nat × LinkStore :=
  ((store.filter (purgeCondition now)).length,
   store.filter fun r => ! purgeCondition now r)

/-! ### SQL `ILIKE` pattern matching

`remove_verification_by_wiki_username` and `get_discord_id` pass the
caller-supplied username verbatim as the pattern of
`mediawiki_username ILIKE %s`, so PostgreSQL pattern semantics apply:
case-insensitive comparison where `%` matches any sequence, `_` matches any
single character, and backslash escapes the following character.  (A pattern
ending in a dangling backslash is an error in PostgreSQL; the model returns
`false` for it, a case no claim exercises.) -/

/-- All suffixes of a character list, longest first (used to interpret `%`). -/
def suffixes : List Char → List (List Char)
  | [] => [[]]
  | c :: cs => (c :: cs) :: suffixes cs

/-- Matcher for PostgreSQL `ILIKE`: `likeMatch pattern s` decides whether the
pattern matches the whole string, comparing characters case-insensitively
(ASCII fold via `Char.toLower`). -/
def likeMatch : List Char → List Char → Bool
  | [], s => s.isEmpty
  | q :: ps, s =>
    if q = '%' then
      (suffixes s).any (likeMatch ps)
    else if q = '_' then
      match s with
      | [] => false
      | _ :: cs => likeMatch ps cs
    else if q = '\\' then
      match s with
      | [] => false
      | c :: cs =>
        match ps with
        | [] => false
        | q2 :: ps2 => (q2.toLower == c.toLower) && likeMatch ps2 cs
    else
      match s with
      | [] => false
      | c :: cs => (q.toLower == c.toLower) && likeMatch ps cs

/-- `pattern ILIKE`-match on strings. -/
def ilike (pattern s : String) : Bool :=
  likeMatch pattern.data s.data

/-- Row condition of `WHERE mediawiki_username ILIKE %s`: a `NULL`
`mediawiki_username` never matches (SQL three-valued logic). -/
def wikiUsernameMatches (pattern : String) (r : LinkRecord) : Bool :=
  match r.mediawiki_username with
  | some u => ilike pattern u
  | none => false

/-- ASCII lowercase fold of a string (the comparison key `ILIKE` uses). -/
def lowerStr (s : String) : String :=
  ⟨s.data.map Char.toLower⟩

/-- `DatabaseManager.remove_verification_by_wiki_username`
(`src/bot/core/database.py:180-194`): `DELETE FROM links WHERE
mediawiki_username ILIKE %s`, returning `rowcount > 0` and the remaining
store. -/
def remove_verification_by_wiki_username (store : LinkStore)
    (mediawiki_username : String) : Bool × LinkStore :=
  let deleted_count := (store.filter (wikiUsernameMatches mediawiki_username)).length
  (decide (deleted_count > 0),
   store.filter fun r => ! wikiUsernameMatches mediawiki_username r)

/-- `DatabaseManager.get_discord_id` (`src/bot/core/database.py:211-224`):
`SELECT discord_id FROM links WHERE mediawiki_username ILIKE %s` followed by
`row[0] if row and row[0] else None` (a stored id of `0` is falsy in Python,
hence mapped to `none`). -/
def get_discord_id (store : LinkStore) (mediawiki_username : String) : Option Int :=
  match store.find? (wikiUsernameMatches mediawiki_username) with
  | some r => if r.discord_id == 0 then none else some r.discord_id
  | none => none

/-- `DatabaseManager.get_mediawiki_username` (`src/bot/core/database.py:196-209`):
`SELECT mediawiki_username FROM links WHERE discord_id = %s` followed by
`row[0] if row and row[0] else None` (an empty stored string is falsy). -/
def get_mediawiki_username (store : LinkStore) (discord_id : Int) : Option String :=
  match store.find? (fun r => r.discord_id == discord_id) with
  | some r => if truthy r.mediawiki_username then r.mediawiki_username else none
  | none => none

/-- `DatabaseManager.get_user_status` (`src/bot/core/database.py:108-120`):
`SELECT verified FROM links WHERE discord_id = %s`; both "no row" and a
database error return `None`. -/
def get_user_status (store : LinkStore) (discord_id : Int) (dbFail : Bool) :
    Option Bool :=
  if dbFail then none
  else (store.find? fun r => r.discord_id == discord_id).map (·.verified)

/-! ### Verification state machine (`src/bot/core/verification.py`) -/

/-- `VerificationState` (`src/bot/core/verification.py:15-24`). -/
inductive VerificationState
  | INITIAL
  | CHECKING_STATUS
  | TESTING_DM_PERMISSIONS
  | CREATING_TOKEN
  | SENDING_VERIFICATION
  | COMPLETED
  | ERROR
deriving Repr, DecidableEq

/-- The user-facing embeds the state machine sends inline through
`context.response_handler` (built in `_handle_status_check`,
`_handle_dm_permission_test` and `_handle_token_creation`). -/
inductive InlineMessage
  | alreadyVerified       -- "Already Verified" success embed
  | dmPermissionRequired  -- "DM Permission Required" error embed
  | verificationPending   -- "Verification Pending" / "pending, check your messages"
deriving Repr, DecidableEq

/-- `VerificationStateMachine._handle_status_check`
(`src/bot/core/verification.py:140-170`).  Note `get_user_status` already
swallows database errors into `None`, so a store failure falls through the
`if context.user_status and context.user_status[0]` test to
`TESTING_DM_PERMISSIONS`. Returns (next state, inline message emitted). -/
def handle_status_check (store : LinkStore) (discord_id : Int) (dbFail : Bool) :
    VerificationState × Option InlineMessage :=
  match get_user_status store discord_id dbFail with
  | some true => (.COMPLETED, some .alreadyVerified)
  | _ => (.TESTING_DM_PERMISSIONS, none)

/-- Result of one `_handle_token_creation` step: the fields of
`VerificationContext` it writes, plus the inline message sent. -/
structure TokenCreationStep where
  state : VerificationState
  token : Option String
  emitted : Option InlineMessage
  error_message : Option String
deriving Repr, DecidableEq

/-- `VerificationStateMachine._handle_token_creation`
(`src/bot/core/verification.py:208-239`): stores the issuer's result in
`context.token`; `if not context.token` sends the "Verification Pending"
embed and completes, otherwise moves to `SENDING_VERIFICATION`.  The
`except` branch (→ `ERROR`) is unreachable because
`create_verification_token` catches every exception internally. -/
def handle_token_creation (store : LinkStore) (discord_id : Int)
    (freshToken : String) (now : Int) (dbFail : Bool) :
    TokenCreationStep × LinkStore :=
  let res := create_verification_token store discord_id freshToken now dbFail
  if truthy res.1 then
    ({ state := .SENDING_VERIFICATION, token := res.1, emitted := none,
       error_message := none }, res.2)
  else
    ({ state := .COMPLETED, token := res.1, emitted := some .verificationPending,
       error_message := none }, res.2)

/-! ### Flask endpoints (`src/api/app.py`) -/

/-- Responses of `GET /verify` (`src/api/app.py:157-203`).  Only
`redirectToAuthorization` enters the OAuth flow; every other constructor is a
rendered error page / HTTP 500. -/
inductive VerifyResult
  | missingToken            -- "Verification token is missing from the request."
  | requestTokenFetchError  -- request-token fetch raised, or tokens missing (outer except → 500)
  | authorizationUrlError   -- "Failed to generate authorization URL"
  | redirectToAuthorization (request_token_secret token request_token_key : String)
deriving Repr, DecidableEq

/-- The `/verify` route.  `tokenParam` is `request.args.get("token")`;
`fetchRequestToken` models `oauth.fetch_request_token` (its exception, or the
`oauth_token` / `oauth_token_secret` fields of its response);
`authorizationUrlOk` models whether `oauth.authorization_url` raises.  The
route performs no database access at all: the token is only tested for
truthiness and stashed in the session (carried in the redirect constructor
here). -/
def verify (tokenParam : Option String)
    (fetchRequestToken : Except String (Option String × Option String))
    (authorizationUrlOk : Bool) : VerifyResult :=
  if ¬ truthy tokenParam then .missingToken
  else
    match fetchRequestToken with
    | .error _ => .requestTokenFetchError
    | .ok (key?, secret?) =>
      if ¬ truthy key? ∨ ¬ truthy secret? then
        -- raise ValueError("Missing tokens in fetch response"), caught by the outer except
        .requestTokenFetchError
      else if ¬ authorizationUrlOk then .authorizationUrlError
      else .redirectToAuthorization (secret?.getD "") (tokenParam.getD "") (key?.getD "")

/-- Result page of `GET /verify/callback` (`src/api/app.py:206-274`): each
constructor is one `error_page` / `render_template_string` exit. -/
inductive CallbackResult
  | missingOAuthParams   -- "Missing OAuth parameters."
  | sessionExpired       -- "Session expired or missing data. Please restart verification."
  | oauthTokenMismatch   -- "OAuth token mismatch. Try again."
  | tokenExchangeFailed  -- "OAuth Token Exchange Failed"
  | userInfoFetchFailed  -- "Failed to Fetch User Info"
  | databaseUpdateFailed -- "Database Update Failed"
  | verificationComplete (username : String)  -- "Verification Complete" page
deriving Repr, DecidableEq

/-- Inputs of one `/verify/callback` request: the two query parameters and the
server-side Flask session (written earlier by `/verify`). -/
structure CallbackRequest where
  oauth_token : Option String
  oauth_verifier : Option String
  session_request_token_key : Option String
  session_request_token_secret : Option String
  session_token : Option String
deriving Repr, DecidableEq

/-- The `/verify/callback` route (`src/api/app.py:206-274`).  `exchange`
models `oauth.fetch_access_token`, `identity` the userinfo fetch (returning
the remote username), `dbFail` the `try/except` around the database update.

The handler never looks the session token up in `links` and reads no clock
(the 10-minute `decode_jwt` helper of `src/api/app.py:129-141` is called by
no route): after the session checks it runs
`UPDATE links SET verified = TRUE, mediawiki_username = %s WHERE token = %s`
unconditionally and renders the success page whatever `cur.rowcount` was. -/
def callback (req : CallbackRequest) (exchange : Except String Unit)
    (identity : Except String String) (dbFail : Bool) (store : LinkStore) :
    CallbackResult × LinkStore :=
  if ¬ truthy req.oauth_token ∨ ¬ truthy req.oauth_verifier then
    (.missingOAuthParams, store)
  else if ¬ truthy req.session_request_token_key ∨
      ¬ truthy req.session_request_token_secret ∨ ¬ truthy req.session_token then
    (.sessionExpired, store)
  else if req.oauth_token ≠ req.session_request_token_key then
    (.oauthTokenMismatch, store)
  else
    match exchange with
    | .error _ => (.tokenExchangeFailed, store)
    | .ok _ =>
      match identity with
      | .error _ => (.userInfoFetchFailed, store)
      | .ok username =>
        if dbFail then (.databaseUpdateFailed, store)
        else
          (.verificationComplete username,
           store.map fun r =>
             if r.token == req.session_token.getD "" then
               { r with verified := true, mediawiki_username := some username }
             else r)

/-! ### Role-grant sweep (`src/bot/core/tasks.py`) -/

/-- A guild member with its role ids. -/
structure Member where
  id : Int
  role_ids : List Int
deriving Repr, DecidableEq

/-- A guild as the sweep sees it: its member list. -/
structure Guild where
  members : List Member
deriving Repr, DecidableEq

/-- `guild.get_member(discord_id)`. -/
def Guild.get_member (g : Guild) (discord_id : Int) : Option Member :=
  g.members.find? fun m => m.id == discord_id

/-- `BotTasks._has_wiki_role` (`src/bot/core/tasks.py:71-73`). -/
def has_wiki_role (roleId : Int) (m : Member) : Bool :=
  m.role_ids.contains roleId

/-- The call `service.is_user_autoconfirmed(mw_username)` at
`src/bot/core/tasks.py:51`.  `VerificationService`
(`src/bot/core/verification.py:40-77`) defines only `process_verification`,
`get_verification_status`, `remove_verification` and `get_verified_users` —
no `is_user_autoconfirmed` exists anywhere in the repository — so the
attribute access raises `AttributeError` on every call, landing in the
surrounding `except Exception` branch of the loop. -/
def is_user_autoconfirmed_call (_mw_username : String) : Except String Bool :=
  .error "AttributeError: VerificationService has no attribute is_user_autoconfirmed"

/-- Outcome of `member.add_roles` for one member. -/
inductive AddRoleOutcome
  | ok
  | forbidden   -- discord.Forbidden: missing permissions
  | otherError
deriving Repr, DecidableEq

/-- The per-member log lines / side effects of `grant_roles_loop`'s body. -/
inductive GrantEvent
  | roleGranted (memberId : Int)              -- "✅ Granted wiki role to ..."
  | grantPermissionDenied (memberId : Int)    -- "❌ Missing permissions to grant role ..."
  | grantFailed (memberId : Int)              -- "❌ Error granting role ..."
  | notAutoconfirmed (memberId : Int)         -- "⏳ ... is not autoconfirmed yet."
  | autoconfirmedCheckFailed (memberId : Int) -- "❌ Error checking autoconfirmed ..."
deriving Repr, DecidableEq

/-- Body of the inner loop of `grant_roles_loop` for one (guild, verified row)
pair (`src/bot/core/tasks.py:44-69`); `none` means the member was skipped
(not in the guild, or already holding the role). -/
def grant_role_step (roleId : Int) (g : Guild) (addRole : Int → AddRoleOutcome)
    (row : Int × String) : Option GrantEvent :=
  match g.get_member row.1 with
  | none => none
  | some m =>
    if has_wiki_role roleId m then none
    else
      match is_user_autoconfirmed_call row.2 with
      | .error _ => some (.autoconfirmedCheckFailed m.id)
      | .ok true =>
        match addRole m.id with
        | .ok => some (.roleGranted m.id)
        | .forbidden => some (.grantPermissionDenied m.id)
        | .otherError => some (.grantFailed m.id)
      | .ok false => some (.notAutoconfirmed m.id)

/-- `BotTasks.grant_roles_loop` (`src/bot/core/tasks.py:35-69`):
`if not Config.WIKI_AUTHOR_ROLE_ID: return` (0 is falsy), then iterate over
every guild and every `(discord_id, mediawiki_username)` of
`get_verified_users()`, producing the per-member events in order. -/
def grant_roles_loop (roleId : Int) (guilds : List Guild)
    (verified_users : List (Int × String)) (addRole : Int → AddRoleOutcome) :
    List GrantEvent :=
  if roleId == 0 then []
  else guilds.flatMap fun g => verified_users.filterMap (grant_role_step roleId g addRole)

/-- `true` exactly on `GrantEvent.roleGranted`. -/
def GrantEvent.isRoleGranted : GrantEvent → Bool
  | .roleGranted _ => true
  | _ => false

/-- A string containing none of the `ILIKE` metacharacters `%`, `_`, `\`;
on such arguments `ILIKE` degenerates to case-insensitive equality. -/
def noWildcards (s : String) : Bool :=
  s.data.all fun c => ! (c == '%' || c == '_' || c == '\\')

/-! ## Helper lemmas -/

/-- Splitting a list by a Boolean predicate preserves its length. -/
theorem length_filter_add_length_filter_not {α : Type} (p : α → Bool) (l : List α) :
    (l.filter p).length + (l.filter fun a => ! p a).length = l.length := by
  induction l with
  | nil => rfl
  | cons a l ih =>
    by_cases h : p a = true <;> simp [List.filter_cons, h] <;> omega

/-- `find?` commutes with a map that does not disturb the predicate. -/
theorem find?_map_of_pred {α : Type} (f : α → α) (p : α → Bool)
    (h : ∀ a, p (f a) = p a) (l : List α) :
    (l.map f).find? p = (l.find? p).map f := by
  induction l with
  | nil => rfl
  | cons a l ih =>
    by_cases hp : p a = true
    · simp [List.find?_cons, h a, hp]
    · rw [Bool.not_eq_true] at hp
      simp [List.find?_cons, h a, hp, ih]

/-- Mapping a function that fixes every element of a list is the identity. -/
theorem map_id_of_fixes {α : Type} (l : List α) (f : α → α) (h : ∀ a ∈ l, f a = a) :
    l.map f = l := by
  induction l with
  | nil => rfl
  | cons a l ih =>
    simp only [List.map_cons, h a (List.mem_cons_self a l),
      ih fun a ha => h a (List.mem_cons_of_mem _ ha)]

/-- Reduction of the `ILIKE` matcher at an ordinary pattern character. -/
theorem likeMatch_cons_of_plain (q : Char) (ps : List Char)
    (h1 : q ≠ '%') (h2 : q ≠ '_') (h3 : q ≠ '\\') :
    likeMatch (q :: ps) [] = false ∧
      ∀ c cs, likeMatch (q :: ps) (c :: cs)
        = ((q.toLower == c.toLower) && likeMatch ps cs) := by
  constructor
  · rw [likeMatch.eq_def]
    simp only [if_neg h1, if_neg h2, if_neg h3]
  · intro c cs
    rw [likeMatch.eq_def]
    simp only [if_neg h1, if_neg h2, if_neg h3]

/-- On a pattern free of `%`, `_` and `\`, the `ILIKE` matcher is exactly
case-insensitive equality of the character lists. -/
theorem likeMatch_no_wildcards (p : List Char)
    (h : ∀ c ∈ p, c ≠ '%' ∧ c ≠ '_' ∧ c ≠ '\\') (s : List Char) :
    likeMatch p s = true ↔ p.map Char.toLower = s.map Char.toLower := by
  induction p generalizing s with
  | nil => cases s <;> simp [likeMatch]
  | cons q ps ih =>
    obtain ⟨h1, h2, h3⟩ := h q (List.mem_cons_self q ps)
    have hrest : ∀ c ∈ ps, c ≠ '%' ∧ c ≠ '_' ∧ c ≠ '\\' :=
      fun c hc => h c (List.mem_cons_of_mem q hc)
    cases s with
    | nil => simp [(likeMatch_cons_of_plain q ps h1 h2 h3).1]
    | cons c cs =>
      rw [(likeMatch_cons_of_plain q ps h1 h2 h3).2 c cs]
      simp [ih hrest, Bool.and_eq_true, beq_iff_eq]

/-- String form of `likeMatch_no_wildcards`. -/
theorem ilike_no_wildcards (pattern s : String) (h : noWildcards pattern = true) :
    ilike pattern s = true ↔ lowerStr pattern = lowerStr s := by
  have h' : ∀ c ∈ pattern.data, c ≠ '%' ∧ c ≠ '_' ∧ c ≠ '\\' := by
    intro c hc
    have h2 := (List.all_eq_true.mp h) c hc
    simpa [and_assoc] using h2
  rw [ilike, likeMatch_no_wildcards pattern.data h' s.data]
  simp [lowerStr, String.ext_iff]

/-- Row condition of the wildcard-free case: a row matches exactly when it
stores a case-insensitively equal username. -/
theorem wikiUsernameMatches_no_wildcards (u : String) (hu : noWildcards u = true)
    (r : LinkRecord) :
    wikiUsernameMatches u r = true ↔
      ∃ w, r.mediawiki_username = some w ∧ lowerStr w = lowerStr u := by
  cases hmw : r.mediawiki_username with
  | none => simp [wikiUsernameMatches, hmw]
  | some w =>
    simp only [wikiUsernameMatches, hmw]
    rw [ilike_no_wildcards u w hu]
    constructor
    · intro hlw
      exact ⟨w, rfl, hlw.symm⟩
    · rintro ⟨w', hw', hlw⟩
      injection hw' with hww
      subst hww
      exact hlw.symm

/-! ## Claims -/

/-- **C3.** For an existing unverified record, calling the token issuer while
`now - created_at` is below the 1-hour reissue cooldown returns the rejection
value and leaves the store (token, created_at, verified) unchanged; calling
it once `now - created_at` is at least the cooldown returns the fresh token
and rewrites the record to `token = freshToken`, `created_at = now`,
`verified = false`. -/
theorem create_verification_token_cooldown
    (store : LinkStore) (discord_id : Int) (freshToken : String) (now : Int)
    (r : LinkRecord)
    (hfind : store.find? (fun r => r.discord_id == discord_id) = some r)
    (hunv : r.verified = false) :
    (now - r.created_at < REISSUE_COOLDOWN_SECONDS →
       create_verification_token store discord_id freshToken now false
         = (none, store)) ∧
    (REISSUE_COOLDOWN_SECONDS ≤ now - r.created_at →
       (create_verification_token store discord_id freshToken now false).1
         = some freshToken ∧
       (create_verification_token store discord_id freshToken now false).2.find?
           (fun r => r.discord_id == discord_id)
         = some { r with token := freshToken, created_at := now,
                         verified := false }) := by
  constructor
  · intro hlt
    simp [create_verification_token, hfind, hunv, hlt]
  · intro hge
    have hnlt : ¬ (now - r.created_at < REISSUE_COOLDOWN_SECONDS) := not_lt.mpr hge
    have hpres : ∀ a : LinkRecord,
        (((if a.discord_id == discord_id then
             { a with token := freshToken, created_at := now, verified := false }
           else a).discord_id == discord_id))
          = (a.discord_id == discord_id) := by
      intro a
      by_cases hda : (a.discord_id == discord_id) = true <;> simp [hda]
    constructor
    · simp [create_verification_token, hfind, hunv, hnlt]
    · have hp0 := List.find?_some hfind
      have hp : (r.discord_id == discord_id) = true := by simpa using hp0
      simp only [create_verification_token, hfind, hunv, hnlt, if_false,
        Bool.false_eq_true, if_neg, ite_false]
      rw [find?_map_of_pred _ _ hpres store, hfind]
      have hpe : r.discord_id = discord_id := by simpa using hp
      simp [hpe]

/-- Witness for `create_verification_token_cooldown` at a concrete store. -/
theorem create_verification_token_cooldown_witness :
    (create_verification_token [⟨1, none, "t0", 0, false⟩] 1 "ft" 100 false
       = (none, [⟨1, none, "t0", 0, false⟩])) ∧
    ((create_verification_token [⟨1, none, "t0", 0, false⟩] 1 "ft" 3600 false).1
       = some "ft" ∧
     (create_verification_token [⟨1, none, "t0", 0, false⟩] 1 "ft" 3600 false).2.find?
         (fun r => r.discord_id == 1)
       = some ⟨1, none, "ft", 3600, false⟩) :=
  ⟨(create_verification_token_cooldown [⟨1, none, "t0", 0, false⟩] 1 "ft" 100
      ⟨1, none, "t0", 0, false⟩ rfl rfl).1 (by decide),
   (create_verification_token_cooldown [⟨1, none, "t0", 0, false⟩] 1 "ft" 3600
      ⟨1, none, "t0", 0, false⟩ rfl rfl).2 (by decide)⟩

/-- **C5.** A purge run deletes exactly the unverified records older than
3 hours: a record survives iff it is in the store and not
(unverified ∧ `created_at < now - 3h`); the returned count is the number of
deleted rows; and on the concrete store {T-4h unverified, T-1h unverified,
T-4h verified} (T = 0) only the first record is deleted and the count is 1. -/
theorem purge_old_tokens_correct :
    (∀ (store : LinkStore) (now : Int) (r : LinkRecord),
        r ∈ (purge_old_tokens store now).2 ↔
          r ∈ store ∧
            ¬(r.verified = false ∧ r.created_at < now - TOKEN_EXPIRY_HOURS * 3600)) ∧
    (∀ (store : LinkStore) (now : Int),
        (purge_old_tokens store now).1 + (purge_old_tokens store now).2.length
          = store.length) ∧
    purge_old_tokens
        [⟨1, none, "t1", -14400, false⟩, ⟨2, none, "t2", -3600, false⟩,
         ⟨3, some "w", "t3", -14400, true⟩] 0
      = (1, [⟨2, none, "t2", -3600, false⟩, ⟨3, some "w", "t3", -14400, true⟩]) := by
  refine ⟨?_, ?_, by decide⟩
  · intro store now r
    simp only [purge_old_tokens, List.mem_filter, Bool.not_eq_true',
      purgeCondition, Bool.and_eq_false_iff]
    constructor
    · rintro ⟨hr, hcond⟩
      refine ⟨hr, ?_⟩
      rintro ⟨hv, hlt⟩
      rcases hcond with h | h
      · simp [hv] at h
      · simp [hlt] at h
    · rintro ⟨hr, hcond⟩
      refine ⟨hr, ?_⟩
      by_cases hv : r.verified = false
      · right
        simp only [decide_eq_false_iff_not]
        exact fun hlt => hcond ⟨hv, hlt⟩
      · left
        simp only [beq_eq_false_iff_ne, ne_eq]
        exact fun h => hv h
  · intro store now
    exact length_filter_add_length_filter_not _ _

/-- **C9.** The token issuer is total at its interface: a store failure is
converted to the same `none` that encodes an already-verified record and a
within-cooldown pending record, the store is left unchanged, and the state
machine's token-creation step consequently reports the "Verification
Pending" outcome (state `COMPLETED`) rather than an error when the store
fails. -/
theorem create_verification_token_total_and_conflated
    (store : LinkStore) (discord_id : Int) (freshToken : String) (now : Int) :
    (create_verification_token store discord_id freshToken now true
       = (none, store)) ∧
    (∀ r, store.find? (fun r => r.discord_id == discord_id) = some r →
        r.verified = true →
        create_verification_token store discord_id freshToken now false
          = (none, store)) ∧
    (∀ r, store.find? (fun r => r.discord_id == discord_id) = some r →
        r.verified = false → now - r.created_at < REISSUE_COOLDOWN_SECONDS →
        create_verification_token store discord_id freshToken now false
          = (none, store)) ∧
    (handle_token_creation store discord_id freshToken now true).1
       = ⟨.COMPLETED, none, some .verificationPending, none⟩ := by
  refine ⟨by simp [create_verification_token], ?_, ?_,
    by simp [handle_token_creation, create_verification_token, truthy]⟩
  · intro r hf hv
    simp [create_verification_token, hf, hv]
  · intro r hf hv hlt
    simp [create_verification_token, hf, hv, hlt]

/-- Witness for `create_verification_token_total_and_conflated`: the three
rejection causes produce the same observable result on concrete stores. -/
theorem create_verification_token_conflated_witness :
    (create_verification_token [⟨1, none, "t0", 0, false⟩] 1 "ft" 100 true
       = (none, [⟨1, none, "t0", 0, false⟩])) ∧
    (create_verification_token [⟨1, some "w", "t0", 0, true⟩] 1 "ft" 100 false
       = (none, [⟨1, some "w", "t0", 0, true⟩])) ∧
    (create_verification_token [⟨1, none, "t0", 0, false⟩] 1 "ft" 100 false
       = (none, [⟨1, none, "t0", 0, false⟩])) ∧
    (handle_token_creation [⟨1, none, "t0", 0, false⟩] 1 "ft" 100 true).1
       = ⟨.COMPLETED, none, some .verificationPending, none⟩ :=
  ⟨(create_verification_token_total_and_conflated
      [⟨1, none, "t0", 0, false⟩] 1 "ft" 100).1,
   (create_verification_token_total_and_conflated
      [⟨1, some "w", "t0", 0, true⟩] 1 "ft" 100).2.1
      ⟨1, some "w", "t0", 0, true⟩ rfl rfl,
   (create_verification_token_total_and_conflated
      [⟨1, none, "t0", 0, false⟩] 1 "ft" 100).2.2.1
      ⟨1, none, "t0", 0, false⟩ rfl rfl (by decide),
   (create_verification_token_total_and_conflated
      [⟨1, none, "t0", 0, false⟩] 1 "ft" 100).2.2.2⟩

/-- **C4 (counterexample).** In the `CREATING_TOKEN` state, a record that is
already verified (the `AlreadyVerified` race) does *not* produce a distinct
"already verified" outcome: the step emits the same "Verification Pending"
message as the `PendingTooRecent` case. -/
theorem token_creation_already_verified_counterexample :
    (handle_token_creation [⟨1, some "AliceWiki", "tok", 0, true⟩] 1 "fresh"
        7200 false).1.emitted = some InlineMessage.verificationPending ∧
    (handle_token_creation [⟨1, some "AliceWiki", "tok", 0, true⟩] 1 "fresh"
        7200 false).1.emitted ≠ some InlineMessage.alreadyVerified := by
  decide

/-- **C4 (amended).** In `CREATING_TOKEN`: a `PendingTooRecent` rejection
emits "Verification Pending" and terminates in `COMPLETED`; an
`AlreadyVerified` race emits the *same* "Verification Pending" outcome (not a
distinct "already verified" message) and also terminates in `COMPLETED`; a
successful issuance (rotation of a stale record or first-time creation)
transitions to `SENDING_VERIFICATION` carrying the fresh token. -/
theorem token_creation_outcomes
    (store : LinkStore) (discord_id : Int) (freshToken : String) (now : Int)
    (hft : freshToken ≠ "") :
    (∀ r, store.find? (fun r => r.discord_id == discord_id) = some r →
        r.verified = false → now - r.created_at < REISSUE_COOLDOWN_SECONDS →
        (handle_token_creation store discord_id freshToken now false).1
          = ⟨.COMPLETED, none, some .verificationPending, none⟩) ∧
    (∀ r, store.find? (fun r => r.discord_id == discord_id) = some r →
        r.verified = true →
        (handle_token_creation store discord_id freshToken now false).1
          = ⟨.COMPLETED, none, some .verificationPending, none⟩) ∧
    (∀ r, store.find? (fun r => r.discord_id == discord_id) = some r →
        r.verified = false → REISSUE_COOLDOWN_SECONDS ≤ now - r.created_at →
        (handle_token_creation store discord_id freshToken now false).1.state
            = .SENDING_VERIFICATION ∧
        (handle_token_creation store discord_id freshToken now false).1.token
            = some freshToken) ∧
    (store.find? (fun r => r.discord_id == discord_id) = none →
        (handle_token_creation store discord_id freshToken now false).1.state
            = .SENDING_VERIFICATION ∧
        (handle_token_creation store discord_id freshToken now false).1.token
            = some freshToken) := by
  refine ⟨?_, ?_, ?_, ?_⟩
  · intro r hf hv hlt
    simp [handle_token_creation, create_verification_token, hf, hv, hlt, truthy]
  · intro r hf hv
    simp [handle_token_creation, create_verification_token, hf, hv, truthy]
  · intro r hf hv hge
    have hnlt : ¬ (now - r.created_at < REISSUE_COOLDOWN_SECONDS) := not_lt.mpr hge
    constructor <;>
      simp [handle_token_creation, create_verification_token, hf, hv, hnlt,
        truthy, hft]
  · intro hf
    constructor <;>
      simp [handle_token_creation, create_verification_token, hf, truthy, hft]

/-- Witness for `token_creation_outcomes` on concrete stores. -/
theorem token_creation_outcomes_witness :
    ((handle_token_creation [⟨1, none, "t0", 0, false⟩] 1 "ft" 100 false).1
       = ⟨.COMPLETED, none, some .verificationPending, none⟩) ∧
    ((handle_token_creation [⟨1, some "w", "t0", 0, true⟩] 1 "ft" 100 false).1
       = ⟨.COMPLETED, none, some .verificationPending, none⟩) ∧
    ((handle_token_creation [⟨1, none, "t0", 0, false⟩] 1 "ft" 3600 false).1.state
       = .SENDING_VERIFICATION) ∧
    ((handle_token_creation [] 1 "ft" 0 false).1.token = some "ft") :=
  ⟨(token_creation_outcomes [⟨1, none, "t0", 0, false⟩] 1 "ft" 100
      (by decide)).1 ⟨1, none, "t0", 0, false⟩ rfl rfl (by decide),
   (token_creation_outcomes [⟨1, some "w", "t0", 0, true⟩] 1 "ft" 100
      (by decide)).2.1 ⟨1, some "w", "t0", 0, true⟩ rfl rfl,
   ((token_creation_outcomes [⟨1, none, "t0", 0, false⟩] 1 "ft" 3600
      (by decide)).2.2.1 ⟨1, none, "t0", 0, false⟩ rfl rfl (by decide)).1,
   ((token_creation_outcomes [] 1 "ft" 0 (by decide)).2.2.2 rfl).2⟩

/-- **C1 (counterexample).** The callback does not reject a token that
matches no stored record — it renders the success page (store unchanged) —
and a token whose record is already verified is not rejected either: the
record is re-updated (its `mediawiki_username` overwritten by the newly
fetched identity) and success is reported. -/
theorem callback_no_rejection_counterexample :
    callback ⟨some "k", some "v", some "k", some "s", some "missing"⟩ (.ok ())
        (.ok "Remote") false [⟨1, none, "stored", 0, false⟩]
      = (.verificationComplete "Remote", [⟨1, none, "stored", 0, false⟩]) ∧
    callback ⟨some "k", some "v", some "k", some "s", some "tok"⟩ (.ok ())
        (.ok "NewName") false [⟨1, some "OldName", "tok", 0, true⟩]
      = (.verificationComplete "NewName", [⟨1, some "NewName", "tok", 0, true⟩]) := by
  decide

/-- **C1 (amended).** The callback performs no token lookup and no
`verified` check: once the parameter, session and OAuth-token-match guards
pass and the exchange, identity fetch and database update succeed, it
renders the success page unconditionally and updates every record whose
`token` equals the session token — zero records (store unchanged) when the
token matches none, and a re-update of an already-verified matching record
otherwise. -/
theorem callback_success_without_token_validation
    (req : CallbackRequest) (username : String) (store : LinkStore)
    (_h1 : truthy req.oauth_token = true)
    (h2 : truthy req.oauth_verifier = true)
    (h3 : truthy req.session_request_token_key = true)
    (h4 : truthy req.session_request_token_secret = true)
    (h5 : truthy req.session_token = true)
    (h6 : req.oauth_token = req.session_request_token_key) :
    callback req (.ok ()) (.ok username) false store
      = (.verificationComplete username,
         store.map fun r =>
           if r.token == req.session_token.getD "" then
             { r with verified := true, mediawiki_username := some username }
           else r) ∧
    ((∀ r ∈ store, r.token ≠ req.session_token.getD "") →
       (callback req (.ok ()) (.ok username) false store).2 = store) := by
  have hmain : callback req (.ok ()) (.ok username) false store
      = (.verificationComplete username,
         store.map fun r =>
           if r.token == req.session_token.getD "" then
             { r with verified := true, mediawiki_username := some username }
           else r) := by
    simp [callback, _h1, h2, h3, h4, h5, h6]
  refine ⟨hmain, fun hnone => ?_⟩
  rw [hmain]
  exact map_id_of_fixes store _ fun r hr => by
    have : (r.token == req.session_token.getD "") = false := by
      simpa using hnone r hr
    simp [this]

/-- Witness for `callback_success_without_token_validation`: with an unknown
session token the store is untouched (while success is still rendered). -/
theorem callback_success_without_token_validation_witness :
    (callback ⟨some "k", some "v", some "k", some "s", some "tok"⟩ (.ok ())
        (.ok "Remote") false [⟨1, none, "stored", 0, false⟩]).2
      = [⟨1, none, "stored", 0, false⟩] :=
  (callback_success_without_token_validation
      ⟨some "k", some "v", some "k", some "s", some "tok"⟩ "Remote"
      [⟨1, none, "stored", 0, false⟩] (by decide) (by decide) (by decide)
      (by decide) (by decide) rfl).2 (by decide)

/-- **C2.** The callback enforces no 10-minute TTL at all: its result does
not depend on the matched record's `created_at` (no clock is read — the
`decode_jwt` helper with its 600-second expiry is called by no route), so a
token whose record is 11 minutes old (`created_at = -660` relative to use
time 0) but not yet purged is finalized (`verified = true`,
`mediawiki_username` set) with the success page, not rejected as
invalid-or-expired. -/
theorem callback_finalizes_expired_token :
    (∀ created_at : Int,
        callback ⟨some "k", some "v", some "k", some "s", some "tok"⟩ (.ok ())
            (.ok "AliceWiki") false [⟨1, none, "tok", created_at, false⟩]
          = (.verificationComplete "AliceWiki",
             [⟨1, some "AliceWiki", "tok", created_at, true⟩])) ∧
    callback ⟨some "k", some "v", some "k", some "s", some "tok"⟩ (.ok ())
        (.ok "AliceWiki") false [⟨1, none, "tok", -660, false⟩]
      = (.verificationComplete "AliceWiki",
         [⟨1, some "AliceWiki", "tok", -660, true⟩]) := by
  refine ⟨fun created_at => ?_, by decide⟩
  simp [callback, truthy]

/-- **C7 (counterexample).** The entry endpoint redirects into the OAuth
flow for a token that matches no record at all (here: any token over the
empty store), so "unknown token does not lead to a redirect" fails. -/
theorem verify_unknown_token_redirects :
    (([] : LinkStore).all fun r => ! (r.token == "zzz")) = true ∧
    verify (some "zzz") (.ok (some "rtk", some "rts")) true
      = .redirectToAuthorization "rts" "zzz" "rtk" := by
  decide

/-- **C7 (amended).** `GET /verify` checks only that the `token` query
parameter is present and non-empty — it consults no store, so any non-empty
token (unknown, already verified or expired alike) is stashed in the session
and redirected to the OAuth authorization URL whenever the request-token
fetch succeeds; only a missing or empty token short-circuits to the
"Missing Token" page without entering the OAuth flow. -/
theorem verify_checks_only_token_presence
    (tokenParam : Option String)
    (fetch : Except String (Option String × Option String)) (authOk : Bool) :
    (truthy tokenParam = false →
       verify tokenParam fetch authOk = .missingToken) ∧
    (∀ key secret, truthy tokenParam = true →
       fetch = .ok (some key, some secret) → key ≠ "" → secret ≠ "" →
       authOk = true →
       verify tokenParam fetch authOk
         = .redirectToAuthorization secret (tokenParam.getD "") key) := by
  constructor
  · intro h
    simp [verify, h]
  · intro key secret ht hf hk hs ha
    subst hf
    subst ha
    have hks : truthy (some key) = true := by simp [truthy, hk]
    have hss : truthy (some secret) = true := by simp [truthy, hs]
    simp [verify, ht, hks, hss]

/-- Witness for `verify_checks_only_token_presence` at a concrete token. -/
theorem verify_checks_only_token_presence_witness :
    verify (some "tkn") (.ok (some "alpha", some "beta")) true
      = .redirectToAuthorization "beta" "tkn" "alpha" :=
  (verify_checks_only_token_presence (some "tkn")
      (.ok (some "alpha", some "beta")) true).2 "alpha" "beta" (by decide) rfl
      (by decide) (by decide) rfl

/-- **C6.** The role-grant sweep can never grant a role: the autoconfirmed
check it relies on (`service.is_user_autoconfirmed`) does not exist on
`VerificationService`, so every eligible member lands in the per-member
"Error checking autoconfirmed" branch (the sweep does continue over all
members — the failure is caught per member, not fatal).  Concretely, for a
verified user who is a guild member without the role, the run produces only
the check-failure event and no grant. -/
theorem grant_roles_loop_never_grants :
    (∀ (roleId : Int) (guilds : List Guild)
        (verified_users : List (Int × String)) (addRole : Int → AddRoleOutcome),
        (grant_roles_loop roleId guilds verified_users addRole).filter
          GrantEvent.isRoleGranted = []) ∧
    grant_roles_loop 99 [⟨[⟨1, []⟩]⟩] [(1, "AliceWiki")] (fun _ => .ok)
      = [.autoconfirmedCheckFailed 1] ∧
    grant_roles_loop 99 [⟨[⟨1, []⟩, ⟨2, []⟩]⟩] [(1, "AliceWiki"), (2, "BobWiki")]
        (fun _ => .ok)
      = [.autoconfirmedCheckFailed 1, .autoconfirmedCheckFailed 2] := by
  refine ⟨?_, by decide, by decide⟩
  intro roleId guilds verified_users addRole
  rw [List.filter_eq_nil_iff]
  intro e he
  unfold grant_roles_loop at he
  by_cases h0 : (roleId == 0) = true
  · simp [h0] at he
  · rw [if_neg h0] at he
    rw [List.mem_flatMap] at he
    obtain ⟨g, _, he⟩ := he
    rw [List.mem_filterMap] at he
    obtain ⟨row, _, hstep⟩ := he
    unfold grant_role_step at hstep
    cases hm : g.get_member row.1 with
    | none =>
      rw [hm] at hstep
      simp at hstep
    | some m =>
      rw [hm] at hstep
      by_cases hr : has_wiki_role roleId m = true
      · simp [hr] at hstep
      · simp [hr, is_user_autoconfirmed_call] at hstep
        rw [← hstep]
        simp [GrantEvent.isRoleGranted]

/-- **C8 (counterexample).** Removal by wiki username is not plain
case-insensitive equality: the pattern "ali_ewiki" (with a `_` wildcard)
deletes the record stored as "alicewiki", although the two strings are not
case-insensitively equal. -/
theorem remove_by_wildcard_counterexample :
    remove_verification_by_wiki_username
        [⟨7, some "alicewiki", "t", 0, true⟩] "ali_ewiki" = (true, []) ∧
    lowerStr "alicewiki" ≠ lowerStr "ali_ewiki" := by
  decide

/-- **C8 (amended).** For usernames containing none of the `ILIKE`
metacharacters `%`, `_`, `\`, removal and lookup by wiki username are
case-insensitive equality: a surviving record is exactly one whose stored
name is not case-insensitively equal to the argument (so removing by
"AliceWiki" deletes a record stored as "alicewiki"), a successful lookup
returns the id of a record whose stored name is case-insensitively equal,
and reads return the stored username with its original case verbatim. -/
theorem wiki_username_ops_case_insensitive
    (store : LinkStore) (u : String) (hu : noWildcards u = true) :
    (∀ r ∈ store,
        r ∈ (remove_verification_by_wiki_username store u).2 ↔
          ¬ ∃ w, r.mediawiki_username = some w ∧ lowerStr w = lowerStr u) ∧
    (∀ d, get_discord_id store u = some d →
        ∃ r ∈ store, r.discord_id = d ∧
          ∃ w, r.mediawiki_username = some w ∧ lowerStr w = lowerStr u) ∧
    (∀ (discord_id : Int) (r : LinkRecord) (w : String),
        store.find? (fun r => r.discord_id == discord_id) = some r →
        r.mediawiki_username = some w → w ≠ "" →
        get_mediawiki_username store discord_id = some w) := by
  refine ⟨?_, ?_, ?_⟩
  · intro r hr
    rw [remove_verification_by_wiki_username]
    simp only [List.mem_filter, Bool.not_eq_true']
    rw [← wikiUsernameMatches_no_wildcards u hu r]
    constructor
    · rintro ⟨_, hm⟩ hcontra
      rw [hm] at hcontra
      exact absurd hcontra (by simp)
    · intro hm
      exact ⟨hr, by simpa using hm⟩
  · intro d hd
    rw [get_discord_id] at hd
    cases hf : store.find? (wikiUsernameMatches u) with
    | none =>
      rw [hf] at hd
      exact absurd hd (by simp)
    | some r0 =>
      rw [hf] at hd
      by_cases hz : (r0.discord_id == 0) = true
      · simp [hz] at hd
      · simp [hz] at hd
        refine ⟨r0, List.mem_of_find?_eq_some hf, hd, ?_⟩
        exact (wikiUsernameMatches_no_wildcards u hu r0).mp (List.find?_some hf)
  · intro discord_id r w hfind hmw hne
    rw [get_mediawiki_username, hfind]
    simp [hmw, truthy, hne]

/-- Witness for `wiki_username_ops_case_insensitive`: removing by
"AliceWiki" deletes the record stored as "alicewiki". -/
theorem wiki_username_ops_case_insensitive_witness :
    LinkRecord.mk 7 (some "alicewiki") "t" 0 true ∉
      (remove_verification_by_wiki_username
        [⟨7, some "alicewiki", "t", 0, true⟩] "AliceWiki").2 :=
  fun hmem =>
    (((wiki_username_ops_case_insensitive [⟨7, some "alicewiki", "t", 0, true⟩]
        "AliceWiki" (by decide)).1 ⟨7, some "alicewiki", "t", 0, true⟩
        (by decide)).mp hmem) ⟨"alicewiki", rfl, by decide⟩

/-- **C10.** The raw `ILIKE` pattern turns `%` and `_` into wildcards: the
single-character argument "%" removes — and `get_discord_id` returns — a
record whose stored `wiki_username` ("alicewiki") is not case-insensitively
equal to the argument. -/
theorem ilike_wildcard_injection :
    remove_verification_by_wiki_username
        [⟨7, some "alicewiki", "t", 0, true⟩] "%" = (true, []) ∧
    get_discord_id [⟨7, some "alicewiki", "t", 0, true⟩] "%" = some 7 ∧
    lowerStr "alicewiki" ≠ lowerStr "%" := by
  decide

end AtlWikiLink
